import Mathlib

/-!
Verification development for the drive-time CLI (src/drive_time.py).

The program is a thin client over an external directions service plus a
small JSON preferences file.  We embed it shallowly:

* JSON values are modelled structurally by `JValue`; the standard-library
  JSON codec (json.dump / json.load) is external to the repository and is
  modelled as a faithful embedding of structured values, with distinguished
  file contents for text that parses to no JSON value (`malformed`, whose
  parse raises the caught JSONDecodeError), bytes invalid in the text
  encoding (`undecodable`, whose read inside json.load raises an uncaught
  UnicodeDecodeError), and a file the open call cannot read (`unreadable`,
  an uncaught OSError).
* The external directions call `gmaps.directions(...)` is modelled as an
  abstract function `Query → Except String (List Route)`: an `Except.error m`
  stands for an exception raised by the client with message `m`, an
  `Except.ok routes` for a returned route list (the pinned client returns the
  route list of the response, which is empty when the service reports that no
  route exists).
* Machine floats are modelled by exact rationals; the rounding in
  `round(seconds / 60, 1)` is modelled as round-half-to-even at one decimal
  on the exact value (binary-representation artifacts of floats are not
  modelled, no claim depends on them).
* Printed output is modelled as a list of structured `OutLine` events in
  print order; formatting that is pure presentation (strftime, printf-style
  number formatting) is not modelled.
-/

namespace DriveTime

/-- JSON values as produced by the standard-library JSON decoder. -/
inductive JValue where
  | null
  | bool (b : Bool)
  | num (q : ℚ)
  | str (s : String)
  | arr (elems : List JValue)
  | obj (fields : List (String × JValue))

/-- Python truthiness of a decoded JSON value (`if not defaults:`):
null, false, zero, the empty string, the empty array and the empty object
are falsy, everything else is truthy. -/
def jTruthy : JValue → Bool
  | .null => false
  | .bool b => b
  | .num q => decide (q ≠ 0)
  | .str s => !s.isEmpty
  | .arr l => !l.isEmpty
  | .obj l => !l.isEmpty

/-- First binding of a key in a decoded JSON object. -/
def jLookup : List (String × JValue) → String → Option JValue
  | [], _ => none
  | (k, v) :: rest, key => if k = key then some v else jLookup rest key

/-- Python subscript `value[key]` with a string key: succeeds only on an
object holding the key; on anything else it raises (modelled as
`Except.error` carrying the exception message). -/
def jGetItem (v : JValue) (key : String) : Except String JValue :=
  match v with
  | .obj fields =>
    match jLookup fields key with
    | some x => .ok x
    | none => .error ("KeyError: " ++ key)
  | .arr _ => .error "list indices must be integers or slices, not str"
  | .str _ => .error "string indices must be integers"
  | _ => .error "object is not subscriptable"

/-- Contents of the preferences file: a file the open call cannot read
(OSError, e.g. a permission failure), bytes invalid in the text encoding
(reading them inside json.load raises UnicodeDecodeError), text that
decodes but is not valid JSON (parsing raises JSONDecodeError), or valid
JSON with its decoded value. -/
inductive FileContent where
  | unreadable
  | undecodable
  | malformed
  | json (v : JValue)

/-- State of the preferences file: `none` when the file is missing. -/
def FileState := Option FileContent

/-- The exceptions the body of `load_defaults` can raise.  Its except
clause catches only FileNotFoundError and JSONDecodeError; OSError and
UnicodeDecodeError escape uncaught. -/
inductive PyExc where
  | fileNotFoundError
  | osError
  | unicodeDecodeError
  | jsonDecodeError

/-- Python message text of each exception, as seen by a caller that
formats the escaped exception (wording abridged; no code inspects these
messages). -/
def pyExcMessage : PyExc → String
  | .fileNotFoundError => "No such file or directory"
  | .osError => "Permission denied"
  | .unicodeDecodeError => "utf-8 codec cannot decode byte"
  | .jsonDecodeError => "Expecting value: line 1 column 1"

/-- Model of `open(DEFAULTS_FILE, 'r')`: raises FileNotFoundError when the
file is missing and OSError when it cannot be read. -/
def pyOpenRead (fs : FileState) : Except PyExc FileContent :=
  match fs with
  | none => .error .fileNotFoundError
  | some FileContent.unreadable => .error .osError
  | some c => .ok c

/-- Model of `json.load` on an open text-mode file: the internal read
raises UnicodeDecodeError on bytes invalid in the encoding (a ValueError
but not a JSONDecodeError), and parsing raises JSONDecodeError on text
that is not valid JSON.  (The unreadable branch is unreachable here: the
open call has already raised.) -/
def pyJsonLoad (c : FileContent) : Except PyExc JValue :=
  match c with
  | .unreadable => .error .osError
  | .undecodable => .error .unicodeDecodeError
  | .malformed => .error .jsonDecodeError
  | .json v => .ok v

/-- `load_defaults` (src/drive_time.py lines 69-75): open and decode the
preferences file.  The except clause catches exactly FileNotFoundError
and JSONDecodeError, returning None for both; any other exception raised
by the body (OSError, UnicodeDecodeError) escapes, modelled as
`Except.error`. -/
def load_defaults (fs : FileState) : Except PyExc (Option JValue) :=
  match (do let c ← pyOpenRead fs; pyJsonLoad c : Except PyExc JValue) with
  | .ok v => .ok (some v)
  | .error PyExc.fileNotFoundError => .ok none
  | .error PyExc.jsonDecodeError => .ok none
  | .error e => .error e

/-- Specification-side description of `load` (spec section 4.2, stated from
the words of the spec, to be compared with `load_defaults`): returns the
saved structured value, or none when the file is missing or its contents
are not valid structured data; never raises. -/
def load_defaults_spec (fs : FileState) : Option JValue :=
  match fs with
  | some (.json v) => some v
  | _ => none

/-- `save_defaults` (lines 77-81): the file contents written for a given
origin/destination pair. -/
def save_defaults (origin destination : String) : FileContent :=
  .json (.obj [("origin", .str origin), ("destination", .str destination)])

/-- Accumulator-style whitespace splitter over the characters of a string
(`acc` holds the characters of the current token in reverse). -/
def splitWsAux : List Char → List Char → List String
  | [], acc => if acc.isEmpty then [] else [String.mk acc.reverse]
  | c :: cs, acc =>
    if c.isWhitespace then
      if acc.isEmpty then splitWsAux cs []
      else String.mk acc.reverse :: splitWsAux cs []
    else splitWsAux cs (c :: acc)

/-- Whitespace split as Python `str.split()` with no argument: split on
whitespace runs, discarding empty pieces. -/
def pySplitWs (s : String) : List String := splitWsAux s.data []

/-- Value of a decimal digit character. -/
def digitVal (c : Char) : ℕ := c.toNat - 48

/-- Value of a list of decimal digit characters read left to right. -/
def digitsVal (l : List Char) : ℕ :=
  l.foldl (fun a c => 10 * a + digitVal c) 0

/-- Whether every character of the list is a decimal digit. -/
def allDigits (l : List Char) : Bool := l.all Char.isDigit

/-- Accumulator-style splitter of a character list at decimal points. -/
def splitDotAux : List Char → List Char → List (List Char)
  | [], acc => [acc.reverse]
  | c :: cs, acc =>
    if c = '.' then acc.reverse :: splitDotAux cs []
    else splitDotAux cs (c :: acc)

/-- Split a character list at every decimal point. -/
def splitDot (l : List Char) : List (List Char) := splitDotAux l []

/-- Model of Python `float(s)` on decimal literals: an optional sign
followed by digits with at most one decimal point (at least one digit
overall).  Returns none where `float` raises ValueError.  Other spellings
accepted by `float` (exponents, inf/nan, underscores, surrounding
whitespace) are outside the shapes this program meets and are not
modelled. -/
def parsePyFloat (s : String) : Option ℚ :=
  let cs := s.data
  let signedRest : ℚ × List Char :=
    match cs with
    | '-' :: t => (-1, t)
    | '+' :: t => (1, t)
    | _ => (1, cs)
  let sign := signedRest.1
  match splitDot signedRest.2 with
  | [ip] =>
    if !ip.isEmpty && allDigits ip then some (sign * digitsVal ip) else none
  | [ip, fp] =>
    if (!ip.isEmpty || !fp.isEmpty) && allDigits ip && allDigits fp then
      some (sign * ((digitsVal ip : ℚ) + (digitsVal fp : ℚ) / 10 ^ fp.length))
    else none
  | _ => none

/-- Whether `needle` is an initial segment of `hay`. -/
def charsAtFront : List Char → List Char → Bool
  | [], _ => true
  | _ :: _, [] => false
  | a :: as, b :: bs => a = b && charsAtFront as bs

/-- Whether `needle` occurs contiguously somewhere in the second list. -/
def charsContain (needle : List Char) : List Char → Bool
  | [] => charsAtFront needle []
  | b :: bs => charsAtFront needle (b :: bs) || charsContain needle bs

/-- Python substring test `needle in hay` on strings. -/
def strContains (hay needle : String) : Bool :=
  charsContain needle.data hay.data

/-- Round a rational to the nearest integer, ties to even (the rounding of
Python round on exact values). -/
def roundHalfToEven (q : ℚ) : ℤ :=
  let f := ⌊q⌋
  let r := q - f
  if r < 1/2 then f
  else if 1/2 < r then f + 1
  else if f % 2 = 0 then f else f + 1

/-- Model of Python `round(q, 1)`: round to one decimal place, ties to
even, on the exact rational value. -/
def pyRound1 (q : ℚ) : ℚ := (roundHalfToEven (10 * q) : ℚ) / 10

/-- One leg of a returned route: the fields of the response this program
reads (`duration_in_traffic.value` in integer seconds, the two
service-normalized addresses, and the human-readable distance text). -/
structure Leg where
  duration_in_traffic : ℤ
  start_address : String
  end_address : String
  distance : String

/-- One route of a directions response. -/
structure Route where
  legs : List Leg

/-- One directions request: origin, destination (Python passes through
whatever value resolution produced, hence `JValue`) and departure epoch. -/
structure Query where
  origin : JValue
  destination : JValue
  departure_time : ℤ

/-- A directions service: each request either raises an exception with a
message (`Except.error`) or returns the route list of the response
(`Except.ok`; empty when the service reports no route). -/
def Service := Query → Except String (List Route)

/-- `eta_minutes` (lines 46-67): perform the directions request and read
`result[0]["legs"][0]`; indexing an empty list raises IndexError.  Returns
`(round(seconds / 60, 1), start_address, end_address, distance text)`. -/
def eta_minutes (svc : Service) (origin destination : JValue)
    (depart_epoch : ℤ) : Except String (ℚ × String × String × String) :=
  match svc ⟨origin, destination, depart_epoch⟩ with
  | .error m => .error m
  | .ok result =>
    match result with
    | [] => .error "list index out of range"
    | route :: _ =>
      match route.legs with
      | [] => .error "list index out of range"
      | leg :: _ =>
        .ok (pyRound1 ((leg.duration_in_traffic : ℚ) / 60),
             leg.start_address, leg.end_address, leg.distance)

/-- The distance-text format of the spec, a number followed by a unit:
exactly two whitespace-separated tokens whose first parses as a decimal
number. -/
def isDistanceText (s : String) : Bool :=
  match pySplitWs s with
  | [n, _u] => (parsePyFloat n).isSome
  | _ => false

/-- The lines the program prints, as structured events in print order.
Presentation-only formatting (strftime clock rendering, printf-style number
formatting) is not modelled; each constructor carries the data printed.
`error msg` is the line `Error: <msg>`; `noRouteFound` is the line
`No route found between the specified addresses.`; `savedDefaults` is the
confirmation line of a defaults save; `noDefaultsFound` is the prompt
header printed before interactive address entry; `mustProvideAddresses`
and `helpText` are the user-error report of --defaults without
addresses. -/
inductive OutLine where
  | savedDefaults (origin destination : String)
  | noDefaultsFound
  | mustProvideAddresses
  | helpText
  | route (origin destination distance : String)
  | currentEta (arrival etaMinutes distanceMi mph : ℚ)
  | futureEta (offset : ℤ) (arrival etaMinutes distanceMi mph : ℚ)
  | error (msg : String)
  | noRouteFound
deriving DecidableEq

/-- `get_addresses` (lines 83-91): load defaults; an exception escaping
`load_defaults` escapes `get_addresses` too (nothing is caught here).  On
a missing/falsy result prompt the user (prompt answers are stripped);
otherwise subscript the loaded value with "origin" then "destination",
which raises on values that are not objects holding both keys (modelled
as `Except.error`).  Python `if not defaults:` covers both a None result
and a falsy decoded value, modelled by the two prompt branches. -/
def get_addresses (fs : FileState) (promptOrigin promptDestination : String) :
    List OutLine × Except String (JValue × JValue) :=
  match load_defaults fs with
  | .error e => ([], .error (pyExcMessage e))
  | .ok none =>
    ([OutLine.noDefaultsFound],
     .ok (.str promptOrigin.trim, .str promptDestination.trim))
  | .ok (some v) =>
    if jTruthy v then
      match jGetItem v "origin" with
      | .error e => ([], .error e)
      | .ok ov =>
        match jGetItem v "destination" with
        | .error e => ([], .error e)
        | .ok dv => ([], .ok (ov, dv))
    else
      ([OutLine.noDefaultsFound],
       .ok (.str promptOrigin.trim, .str promptDestination.trim))

/-- Parsed command-line arguments: two optional positional addresses,
the future offset N of the --future flag, and the --defaults flag. -/
structure Args where
  origin : Option String
  destination : Option String
  future : Option ℤ
  defaults : Bool

/-- The average-speed expression of lines 131-133 and 145-147:
`distance_mi / hours if hours > 0 else 0` with `hours = eta / 60`. -/
def avgSpeed (distanceMi etaMinutes : ℚ) : ℚ :=
  let hours := etaMinutes / 60
  if hours > 0 then distanceMi / hours else 0

/-- The except-clause of lines 150-153: print `Error: <msg>`, and when the
message contains "ZERO_RESULTS" also print the no-route line. -/
def exceptLines (msg : String) : List OutLine :=
  OutLine.error msg ::
    (if strContains msg "ZERO_RESULTS" then [OutLine.noRouteFound] else [])

/-- Result of one program run: the printed lines, the directions queries
performed in order, the contents written to the preferences file (if any),
and the message of an exception escaping `main` (if any). -/
structure RunResult where
  output : List OutLine
  queries : List Query
  savedFile : Option FileContent
  uncaught : Option String

/-- The try-block of `main` (lines 122-153) given the resolved origin and
destination: query the current ETA, extract the leading distance token and
parse it, compute speed and arrival, print the route and current-ETA lines;
when a future offset was requested, query again with the service-normalized
addresses at `now + N*60` and print the future-ETA line.  Any exception is
caught and printed by `exceptLines`.  Returns the printed lines and the
queries performed. -/
def mainTry (svc : Service) (futureArg : Option ℤ) (now : ℤ)
    (current_time : ℚ) (origin destination : JValue) :
    List OutLine × List Query :=
  let q1 : Query := ⟨origin, destination, now⟩
  match eta_minutes svc origin destination now with
  | .error e => (exceptLines e, [q1])
  | .ok (current_eta, formatted_origin, formatted_destination, distance) =>
    match pySplitWs distance with
    | [] => (exceptLines "list index out of range", [q1])
    | tok :: _ =>
      match parsePyFloat tok with
      | none =>
        (exceptLines ("could not convert string to float: " ++ tok), [q1])
      | some distance_mi =>
        let avg_speed := avgSpeed distance_mi current_eta
        let arrival_time := current_time + current_eta
        let lines :=
          [OutLine.route formatted_origin formatted_destination distance,
           OutLine.currentEta arrival_time current_eta distance_mi avg_speed]
        match futureArg with
        | none => (lines, [q1])
        | some n =>
          let future_epoch := now + n * 60
          let q2 : Query :=
            ⟨.str formatted_origin, .str formatted_destination, future_epoch⟩
          match eta_minutes svc (.str formatted_origin)
              (.str formatted_destination) future_epoch with
          | .error e => (lines ++ exceptLines e, [q1, q2])
          | .ok (future_eta, _, _, future_distance) =>
            match pySplitWs future_distance with
            | [] => (lines ++ exceptLines "list index out of range", [q1, q2])
            | ftok :: _ =>
              match parsePyFloat ftok with
              | none =>
                (lines ++
                   exceptLines ("could not convert string to float: " ++ ftok),
                 [q1, q2])
              | some future_distance_mi =>
                let future_avg_speed := avgSpeed future_distance_mi future_eta
                let future_arrival := current_time + ((n : ℚ) + future_eta)
                (lines ++
                   [OutLine.futureEta n future_arrival future_eta
                      future_distance_mi future_avg_speed],
                 [q1, q2])

/-- `main` (lines 93-153).  Resolution: if either positional address is
missing, --defaults is a reported user error (help text printed, return);
otherwise both addresses come from `get_addresses`, whose exceptions escape
`main` uncaught.  When both addresses were supplied and --defaults is set,
the pair is saved and the confirmation line printed; in every non-error
case the run then proceeds into the try-block (the save path does not
return early).  The post-resolution save check of line 118 is reachable
only with both positional arguments supplied, as in the source. -/
def mainRun (args : Args) (fs : FileState)
    (promptOrigin promptDestination : String) (svc : Service) (now : ℤ)
    (current_time : ℚ) : RunResult :=
  match args.origin, args.destination with
  | some o, some d =>
    let savedLines := if args.defaults then [OutLine.savedDefaults o d] else []
    let savedFile := if args.defaults then some (save_defaults o d) else none
    let tryRes := mainTry svc args.future now current_time (.str o) (.str d)
    ⟨savedLines ++ tryRes.1, tryRes.2, savedFile, none⟩
  | _, _ =>
    if args.defaults then
      ⟨[OutLine.mustProvideAddresses, OutLine.helpText], [], none, none⟩
    else
      match get_addresses fs promptOrigin promptDestination with
      | (gaLines, .error e) => ⟨gaLines, [], none, some e⟩
      | (gaLines, .ok (vo, vd)) =>
        let tryRes := mainTry svc args.future now current_time vo vd
        ⟨gaLines ++ tryRes.1, tryRes.2, none, none⟩

/-- A directions service returning an empty route list for every request:
the shape of a response whose status reports that no route exists. -/
def svcNoRoute : Service := fun _ => .ok []

/-- A sample leg for concrete runs: ten minutes of driving over five
miles. -/
def legA : Leg := ⟨600, "A St", "B St", "5.0 mi"⟩

/-- A service answering every request with one route consisting of
`legA`. -/
def svcA : Service := fun _ => .ok [⟨[legA]⟩]

/-- A sample leg with a zero-second duration in traffic. -/
def legZero : Leg := ⟨0, "A St", "B St", "5.0 mi"⟩

/-- A service answering every request with one route consisting of
`legZero`. -/
def svcZero : Service := fun _ => .ok [⟨[legZero]⟩]

/- ------------------------------------------------------------------ -/
/- Theorems.                                                          -/
/- ------------------------------------------------------------------ -/

theorem roundHalfToEven_nonneg {q : ℚ} (h : 0 ≤ q) :
    0 ≤ roundHalfToEven q := by
  have hf : (0 : ℤ) ≤ ⌊q⌋ := Int.floor_nonneg.mpr h
  unfold roundHalfToEven
  dsimp only
  split
  · exact hf
  · split
    · omega
    · split <;> omega

theorem pyRound1_nonneg {q : ℚ} (h : 0 ≤ q) : 0 ≤ pyRound1 q := by
  unfold pyRound1
  have h10 : (0 : ℚ) ≤ ((roundHalfToEven (10 * q) : ℤ) : ℚ) := by
    exact_mod_cast roundHalfToEven_nonneg (by positivity)
  exact div_nonneg h10 (by norm_num)

theorem load_defaults_missing : load_defaults none = .ok none := rfl

theorem load_defaults_unreadable :
    load_defaults (some FileContent.unreadable) = .error PyExc.osError := rfl

theorem load_defaults_undecodable :
    load_defaults (some FileContent.undecodable) =
      .error PyExc.unicodeDecodeError := rfl

theorem load_defaults_malformed :
    load_defaults (some FileContent.malformed) = .ok none := rfl

theorem load_defaults_json (v : JValue) :
    load_defaults (some (FileContent.json v)) = .ok (some v) := rfl

/-- C1: for a valid query (the service answers with at least one route, a
first leg, non-negative traffic seconds and a well-formed distance text),
`eta_minutes` returns the four-tuple of the first route's first leg:
seconds divided by 60 rounded to one decimal (hence non-negative), the
service-normalized start and end address strings, and the distance text,
which matches the number-space-unit format. -/
theorem c1_eta_minutes_first_leg (svc : Service) (origin destination : JValue)
    (depart : ℤ) {route : Route} {rs : List Route} {leg : Leg} {ls : List Leg}
    (hsvc : svc ⟨origin, destination, depart⟩ = .ok (route :: rs))
    (hlegs : route.legs = leg :: ls)
    (hsec : 0 ≤ leg.duration_in_traffic)
    (hdist : isDistanceText leg.distance = true) :
    eta_minutes svc origin destination depart =
      .ok (pyRound1 ((leg.duration_in_traffic : ℚ) / 60),
           leg.start_address, leg.end_address, leg.distance)
    ∧ 0 ≤ pyRound1 ((leg.duration_in_traffic : ℚ) / 60)
    ∧ isDistanceText leg.distance = true := by
  refine ⟨?_, ?_, hdist⟩
  · unfold eta_minutes
    rw [hsvc]
    dsimp only
    rw [hlegs]
  · refine pyRound1_nonneg (div_nonneg ?_ (by norm_num))
    exact_mod_cast hsec

/-- Witness for C1 at a concrete service: one route, one leg of 600
traffic seconds with distance text "5.0 mi". -/
theorem c1_eta_minutes_first_leg_witness :
    eta_minutes svcA (.str "a") (.str "b") 0 =
      .ok (pyRound1 (((600 : ℤ) : ℚ) / 60), "A St", "B St", "5.0 mi")
    ∧ 0 ≤ pyRound1 (((600 : ℤ) : ℚ) / 60)
    ∧ isDistanceText "5.0 mi" = true :=
  @c1_eta_minutes_first_leg svcA (.str "a") (.str "b") 0 ⟨[legA]⟩ [] legA []
    rfl rfl (by decide) (by decide)

/-- C4: the claim (and the spec) say load never raises, but the code
does: on file contents whose bytes are invalid in the text encoding, the
read inside json.load raises UnicodeDecodeError — a ValueError but not a
JSONDecodeError — which the except clause at line 74 does not catch, so
`load_defaults` raises; an OSError from the open call likewise escapes.
Only on the states the except clause anticipates (file missing, text that
is not valid JSON, valid JSON) does `load_defaults` return the value the
spec description `load_defaults_spec` gives. -/
theorem c4_load_defaults_decode_error_escapes :
    load_defaults (some FileContent.undecodable) =
      .error PyExc.unicodeDecodeError
    ∧ load_defaults (some FileContent.unreadable) = .error PyExc.osError
    ∧ load_defaults none = .ok (load_defaults_spec none)
    ∧ load_defaults (some FileContent.malformed) =
        .ok (load_defaults_spec (some FileContent.malformed))
    ∧ ∀ v : JValue, load_defaults (some (FileContent.json v)) =
        .ok (load_defaults_spec (some (FileContent.json v))) :=
  ⟨rfl, rfl, rfl, rfl, fun _ => rfl⟩

/-- C5: saving a pair and loading it back yields the same origin and
destination strings. -/
theorem c5_save_load_roundtrip (o d : String) :
    load_defaults (some (save_defaults o d)) =
      .ok (some (JValue.obj [("origin", .str o), ("destination", .str d)]))
    ∧ jGetItem (JValue.obj [("origin", .str o), ("destination", .str d)])
        "origin" = .ok (.str o)
    ∧ jGetItem (JValue.obj [("origin", .str o), ("destination", .str d)])
        "destination" = .ok (.str d) := by
  refine ⟨rfl, rfl, ?_⟩
  simp [jGetItem, jLookup]

theorem mainTry_queries_head (svc : Service) (fut : Option ℤ) (now : ℤ)
    (ct : ℚ) (vo vd : JValue) :
    (mainTry svc fut now ct vo vd).2.head? = some ⟨vo, vd, now⟩ := by
  unfold mainTry
  dsimp only
  repeat' (first | split | (dsimp only; split))
  all_goals rfl

theorem mainTry_speed_inv (svc : Service) (fut : Option ℤ) (now : ℤ)
    (ct : ℚ) (vo vd : JValue) :
    ∀ x ∈ (mainTry svc fut now ct vo vd).1,
      (∀ a e dm sp, x = OutLine.currentEta a e dm sp → sp = avgSpeed dm e) ∧
      (∀ n a e dm sp, x = OutLine.futureEta n a e dm sp → sp = avgSpeed dm e) := by
  intro x hx
  unfold mainTry at hx
  dsimp only at hx
  repeat' (first | split at hx | (dsimp only at hx; split at hx))
  all_goals refine ⟨fun a e dm sp hxx => ?_, fun n a e dm sp hxx => ?_⟩
  all_goals subst hxx
  all_goals simp_all [exceptLines]

/-- C2 counterexample: on a run whose service reports no route by
returning an empty route list, the program prints only the line
`Error: list index out of range` and never the no-route-found line, so the
claim that an additional no-route message follows the error line fails. -/
theorem c2_counterexample :
    (mainRun ⟨some "A", some "B", none, false⟩ none "" "" svcNoRoute 0 0).output =
        [OutLine.error "list index out of range"]
    ∧ OutLine.noRouteFound ∉
        (mainRun ⟨some "A", some "B", none, false⟩ none "" "" svcNoRoute 0 0).output := by
  exact ⟨rfl, by decide⟩

/-- C2 amended: on a run where the service reports no route, the exception
is caught (nothing escapes `main`) and a line beginning `Error: ` is
printed; the additional no-route-found line is printed exactly when the
caught message contains ZERO_RESULTS, which an empty-route-list response
(whose IndexError message is `list index out of range`) does not
produce. -/
theorem c2_amended_error_reporting (o d : String) (fut : Option ℤ) (df : Bool)
    (fs : FileState) (po pd : String) (svc : Service) (now : ℤ) (ct : ℚ) :
    (svc ⟨.str o, .str d, now⟩ = .ok [] →
      (mainRun ⟨some o, some d, fut, df⟩ fs po pd svc now ct).output =
        (if df then [OutLine.savedDefaults o d] else []) ++
          [OutLine.error "list index out of range"]
      ∧ (mainRun ⟨some o, some d, fut, df⟩ fs po pd svc now ct).uncaught = none)
    ∧ (∀ m, svc ⟨.str o, .str d, now⟩ = .error m →
        strContains m "ZERO_RESULTS" = true →
        (mainRun ⟨some o, some d, fut, df⟩ fs po pd svc now ct).output =
          (if df then [OutLine.savedDefaults o d] else []) ++
            [OutLine.error m, OutLine.noRouteFound]
        ∧ (mainRun ⟨some o, some d, fut, df⟩ fs po pd svc now ct).uncaught = none) := by
  constructor
  · intro h
    refine ⟨?_, by simp [mainRun]⟩
    simp [mainRun, mainTry, eta_minutes, h, exceptLines,
      (by decide : strContains "list index out of range" "ZERO_RESULTS" = false)]
  · intro m h hzr
    refine ⟨?_, by simp [mainRun]⟩
    simp [mainRun, mainTry, eta_minutes, h, exceptLines, hzr]

/-- Witness for the amended C2 at a concrete no-route service. -/
theorem c2_amended_error_reporting_witness :
    (mainRun ⟨some "A", some "B", none, false⟩ none "" "" svcNoRoute 0 0).output =
      (if false then [OutLine.savedDefaults "A" "B"] else []) ++
        [OutLine.error "list index out of range"]
    ∧ (mainRun ⟨some "A", some "B", none, false⟩ none "" "" svcNoRoute 0 0).uncaught =
        none :=
  (c2_amended_error_reporting "A" "B" none false none "" "" svcNoRoute 0 0).1 rfl

/-- C3 counterexample: a run with both addresses and the defaults flag
(defaults file absent) saves the pair and prints the confirmation, but the
claim that no directions query is performed fails: exactly one query is
issued. -/
theorem c3_counterexample :
    (mainRun ⟨some "A", some "B", none, true⟩ none "" "" svcNoRoute 0 0).savedFile =
        some (save_defaults "A" "B")
    ∧ OutLine.savedDefaults "A" "B" ∈
        (mainRun ⟨some "A", some "B", none, true⟩ none "" "" svcNoRoute 0 0).output
    ∧ (mainRun ⟨some "A", some "B", none, true⟩ none "" "" svcNoRoute 0 0).queries =
        [⟨.str "A", .str "B", 0⟩] := by
  exact ⟨rfl, by decide, rfl⟩

/-- C3 amended: with both addresses and the defaults flag, the run writes
exactly the origin/destination object to the preferences file, prints the
confirmation line first, and then still performs the current-ETA
directions query (the saved pair as origin and destination, departing at
now); the program does not return before querying. -/
theorem c3_amended_save_then_query (o d : String) (fut : Option ℤ)
    (fs : FileState) (po pd : String) (svc : Service) (now : ℤ) (ct : ℚ) :
    (mainRun ⟨some o, some d, fut, true⟩ fs po pd svc now ct).savedFile =
        some (save_defaults o d)
    ∧ (mainRun ⟨some o, some d, fut, true⟩ fs po pd svc now ct).output.head? =
        some (OutLine.savedDefaults o d)
    ∧ (mainRun ⟨some o, some d, fut, true⟩ fs po pd svc now ct).queries.head? =
        some ⟨.str o, .str d, now⟩ := by
  refine ⟨rfl, rfl, ?_⟩
  exact mainTry_queries_head svc fut now ct (.str o) (.str d)

/-- C6: requesting to save defaults while omitting at least one positional
address reports the user error (error line plus help text) and returns
without performing any query, without writing the preferences file, and
without an uncaught exception. -/
theorem c6_defaults_requires_addresses (o? d? : Option String)
    (fut : Option ℤ) (fs : FileState) (po pd : String) (svc : Service)
    (now : ℤ) (ct : ℚ) (h : o? = none ∨ d? = none) :
    mainRun ⟨o?, d?, fut, true⟩ fs po pd svc now ct =
      ⟨[OutLine.mustProvideAddresses, OutLine.helpText], [], none, none⟩ := by
  cases o? with
  | none => cases d? <;> rfl
  | some a =>
    cases d? with
    | none => rfl
    | some b => rcases h with h | h <;> simp at h

/-- Witness for C6 with both addresses omitted. -/
theorem c6_defaults_requires_addresses_witness :
    mainRun ⟨none, none, none, true⟩ none "" "" svcNoRoute 0 0 =
      ⟨[OutLine.mustProvideAddresses, OutLine.helpText], [], none, none⟩ :=
  c6_defaults_requires_addresses none none none none "" "" svcNoRoute 0 0
    (Or.inl rfl)

/-- C7: in every run, any printed current-ETA line and any printed
future-ETA line whose computed ETA is 0 minutes carries an average speed
of 0 (the divide-by-zero guard), for both the current and the future
computation. -/
theorem c7_zero_eta_zero_speed (svc : Service) (fut : Option ℤ) (now : ℤ)
    (ct : ℚ) (vo vd : JValue) :
    (∀ a e dm sp,
        OutLine.currentEta a e dm sp ∈ (mainTry svc fut now ct vo vd).1 →
        e = 0 → sp = 0)
    ∧ (∀ n a e dm sp,
        OutLine.futureEta n a e dm sp ∈ (mainTry svc fut now ct vo vd).1 →
        e = 0 → sp = 0) := by
  constructor
  · intro a e dm sp hmem he
    have h := (mainTry_speed_inv svc fut now ct vo vd _ hmem).1 a e dm sp rfl
    subst he
    rw [h]
    simp [avgSpeed]
  · intro n a e dm sp hmem he
    have h := (mainTry_speed_inv svc fut now ct vo vd _ hmem).2 n a e dm sp rfl
    subst he
    rw [h]
    simp [avgSpeed]

/-- Witness for C7 at a service whose single leg takes zero traffic
seconds: the printed current-ETA line has ETA 0 and speed 0. -/
theorem c7_zero_eta_zero_speed_witness :
    OutLine.currentEta 0 0 5 0 ∈
        (mainTry svcZero none 0 0 (.str "a") (.str "b")).1
    ∧ (0 : ℚ) = 0 := by
  have h1 : pyRound1 (((0 : ℤ) : ℚ) / 60) = 0 := by
    norm_num [pyRound1, roundHalfToEven]
  have hmem : OutLine.currentEta 0 0 5 0 ∈
      (mainTry svcZero none 0 0 (.str "a") (.str "b")).1 := by
    have hlist : (mainTry svcZero none 0 0 (.str "a") (.str "b")).1 =
        [OutLine.route "A St" "B St" "5.0 mi", OutLine.currentEta 0 0 5 0] := by
      have heta : eta_minutes svcZero (.str "a") (.str "b") 0 =
          .ok (pyRound1 (((0 : ℤ) : ℚ) / 60), "A St", "B St", "5.0 mi") := rfl
      unfold mainTry
      rw [heta]
      dsimp only
      rw [show pySplitWs "5.0 mi" = ["5.0", "mi"] from by decide]
      dsimp only
      rw [show parsePyFloat "5.0" =
            some ((1 : ℚ) * (((5 : ℕ) : ℚ) + ((0 : ℕ) : ℚ) / 10 ^ 1)) from rfl]
      dsimp only
      have h2 : ((1 : ℚ) * (((5 : ℕ) : ℚ) + ((0 : ℕ) : ℚ) / 10 ^ 1)) = 5 := by
        norm_num
      rw [h1, h2]
      norm_num [avgSpeed]
    rw [hlist]
    simp
  exact ⟨hmem,
    (c7_zero_eta_zero_speed svcZero none 0 0 (.str "a") (.str "b")).1
      0 0 5 0 hmem rfl⟩

/-- C8: in a run with both addresses and a future offset, when the first
query succeeds the second (future) query uses the service-normalized
addresses of the first response, not the user-supplied strings, with
departure time now plus the offset in seconds. -/
theorem c8_future_query_formatted (o d : String) (n : ℤ) (df : Bool)
    (fs : FileState) (po pd : String) (svc : Service) (now : ℤ) (ct : ℚ)
    {route : Route} {rs : List Route} {leg : Leg} {ls : List Leg}
    {tok : String} {ts : List String} {m : ℚ}
    (hsvc : svc ⟨.str o, .str d, now⟩ = .ok (route :: rs))
    (hlegs : route.legs = leg :: ls)
    (htok : pySplitWs leg.distance = tok :: ts)
    (hparse : parsePyFloat tok = some m) :
    (mainRun ⟨some o, some d, some n, df⟩ fs po pd svc now ct).queries =
      [⟨.str o, .str d, now⟩,
       ⟨.str leg.start_address, .str leg.end_address, now + n * 60⟩] := by
  have he : eta_minutes svc (.str o) (.str d) now =
      .ok (pyRound1 ((leg.duration_in_traffic : ℚ) / 60),
           leg.start_address, leg.end_address, leg.distance) := by
    unfold eta_minutes
    rw [hsvc]
    dsimp only
    rw [hlegs]
  simp only [mainRun]
  unfold mainTry
  rw [he]
  dsimp only
  rw [htok]
  dsimp only
  rw [hparse]
  repeat' (first | rfl | dsimp only | split)

/-- Witness for C8 at a concrete service with one route and future offset
30 minutes. -/
theorem c8_future_query_formatted_witness :
    (mainRun ⟨some "A", some "B", some 30, false⟩ none "" "" svcA 0 0).queries =
      [⟨.str "A", .str "B", 0⟩, ⟨.str "A St", .str "B St", 0 + 30 * 60⟩] :=
  @c8_future_query_formatted "A" "B" 30 false none "" "" svcA 0 0
    ⟨[legA]⟩ [] legA [] "5.0" ["mi"] _ rfl rfl rfl rfl

/-- C9: without the defaults flag, supplying exactly one positional
address behaves identically to supplying neither: the run is the same
(same output, queries, file writes and exceptions), the one supplied
argument being discarded in favour of defaults or prompts. -/
theorem c9_single_positional_ignored (o d : String) (fut : Option ℤ)
    (fs : FileState) (po pd : String) (svc : Service) (now : ℤ) (ct : ℚ) :
    mainRun ⟨some o, none, fut, false⟩ fs po pd svc now ct =
      mainRun ⟨none, none, fut, false⟩ fs po pd svc now ct
    ∧ mainRun ⟨none, some d, fut, false⟩ fs po pd svc now ct =
      mainRun ⟨none, none, fut, false⟩ fs po pd svc now ct :=
  ⟨rfl, rfl⟩

/-- C10: interactive prompting happens exactly when the preferences file
is missing, malformed, or decodes to a falsy value; when the decoded value
is truthy and subscripting it with origin or destination raises, the
exception escapes `get_addresses` instead of falling back to the
prompt. -/
theorem c10_truthy_defaults_indexing (fs : FileState) (po pd : String) :
    (OutLine.noDefaultsFound ∈ (get_addresses fs po pd).1 ↔
      fs = none ∨ fs = some FileContent.malformed ∨
        ∃ v, fs = some (FileContent.json v) ∧ jTruthy v = false)
    ∧ (∀ v, fs = some (FileContent.json v) → jTruthy v = true →
        ((∃ e, jGetItem v "origin" = .error e) ∨
          (∃ x e, jGetItem v "origin" = .ok x ∧
             jGetItem v "destination" = .error e)) →
        ∃ e, (get_addresses fs po pd).2 = .error e) := by
  constructor
  · cases fs with
    | none => simp [get_addresses, load_defaults_missing]
    | some c =>
      cases c with
      | unreadable =>
        simp [get_addresses, load_defaults_unreadable]
        exact ⟨fun hcon => FileContent.noConfusion (Option.some.inj hcon),
               fun x hx => FileContent.noConfusion (Option.some.inj hx)⟩
      | undecodable =>
        simp [get_addresses, load_defaults_undecodable]
        exact ⟨fun hcon => FileContent.noConfusion (Option.some.inj hcon),
               fun x hx => FileContent.noConfusion (Option.some.inj hx)⟩
      | malformed =>
        simp [get_addresses, load_defaults_malformed]
      | json v =>
        cases hv : jTruthy v with
        | false =>
          simp [get_addresses, load_defaults_json, hv]
          exact Or.inr ⟨v, rfl, hv⟩
        | true =>
          have hclose : ¬some (FileContent.json v) = some FileContent.malformed ∧
              ∀ (x : JValue),
                some (FileContent.json v) = some (FileContent.json x) →
                jTruthy x = true := by
            constructor
            · intro hcon
              injection hcon with hcc
              exact FileContent.noConfusion hcc
            · intro x hx
              injection hx with hxx
              injection hxx with hvv
              exact hvv ▸ hv
          rcases h1 : jGetItem v "origin" with e | ov
          · simp [get_addresses, load_defaults_json, hv, h1]
            exact hclose
          · rcases h2 : jGetItem v "destination" with e | dv <;>
              simp [get_addresses, load_defaults_json, hv, h1, h2] <;>
              exact hclose
  · intro v hfs htr hidx
    subst hfs
    rcases hidx with ⟨e, he⟩ | ⟨x, e, hx, he⟩
    · exact ⟨e, by
        simp [get_addresses, load_defaults_json, htr, he]⟩
    · exact ⟨e, by
        simp [get_addresses, load_defaults_json, htr, hx, he]⟩

/-- Witness for C10 at a truthy non-object value (a non-empty array). -/
theorem c10_truthy_defaults_indexing_witness :
    ∃ e, (get_addresses (some (FileContent.json (JValue.arr [JValue.num 1])))
        "x" "y").2 = Except.error e :=
  (c10_truthy_defaults_indexing
      (some (FileContent.json (JValue.arr [JValue.num 1]))) "x" "y").2
    (JValue.arr [JValue.num 1]) rfl rfl
    (Or.inl ⟨"list indices must be integers or slices, not str", rfl⟩)

end DriveTime
